import Mathlib

/-!
Verification of the natural-language specification of the cef-3.2623 source
slice against a shallow Lean embedding of its code.

Embedded units:
* `chrome/browser/extensions/api/webstore_private/webstore_private_api.cc`
  (concatenated into src's `cookies_api.h`): the pending-approvals flow of
  `beginInstallWithManifest3` / `completeInstall`.
* `chrome/browser/extensions/api/signed_in_devices/id_mapping_helper.cc`
  (same concatenation): `GetRandomId`, `CreateMappingForUnmappedDevices`.
* `chrome/browser/android/foreign_session_helper.cc`: skip predicates and the
  copy-to-Java loops of `GetForeignSessions`.
* `chrome/browser/extensions/api/tab_capture/tab_capture_api.cc`: the
  `capture` / `captureOffscreenTab` check sequences and
  `DetermineInitialSize`.
* `PlatformNotificationServiceImpl::OnPersistentNotificationClose`
  (src/unnamed/part_001): its effect trace.
-/

/-- Modelled from the spec: Chromium `Profile` identity (the `Profile` class is
owned by external Chromium code and is not under src/). `originalId` names the
original (non-incognito) profile; `Profile::IsSameProfile` holds when two
profiles share the same original profile, and the two flags mirror
`Profile::IsGuestSession` and `Profile::IsOffTheRecord`. -/
structure Profile where
  originalId : Nat
  offTheRecord : Bool
  guestSession : Bool
deriving Repr, DecidableEq

/-- `Profile::IsSameProfile`: both profiles resolve to the same original
profile. -/
def isSameProfile (p q : Profile) : Bool :=
  p.originalId == q.originalId

/-- `WebstoreInstaller::Approval`, restricted to the fields the pending list
logic reads: the extension id and the profile the approval was created for. -/
structure Approval where
  extension_id : String
  profile : Profile
deriving Repr, DecidableEq

/-- `PendingApprovals::PushApproval`: appends the approval to the global list
`approvals_` (a `push_back`). -/
def PushApproval (approvals : List Approval) (approval : Approval) : List Approval :=
  approvals ++ [approval]

/-- `PendingApprovals::PopApproval`: scans `approvals_` in order and removes
and returns the first approval whose `extension_id` equals `id` and whose
profile is the same profile as `profile`; returns `none` and leaves the list
unchanged when no approval matches. -/
def PopApproval (profile : Profile) (id : String) :
    List Approval → Option Approval × List Approval
  | [] => (none, [])
  | a :: rest =>
    if a.extension_id == id && isSameProfile profile a.profile then
      (some a, rest)
    else
      let r := PopApproval profile id rest
      (r.1, a :: r.2)

/-- Modelled from the spec: `crx_file::id_util::IdIsValid` (not under src/): a
valid extension id is exactly 32 characters, each in the range a..p (ids are
modelled already lower-case). -/
def idIsValid (s : String) : Bool :=
  s.length == 32 && s.data.all (fun c => 'a' ≤ c && c ≤ 'p')

/-- `kNoPreviousBeginInstallWithManifestError` of webstore_private_api.cc. -/
def kNoPreviousBeginInstallWithManifestError : String :=
  "* does not match a previous call to beginInstallWithManifest3"

/-- `kInvalidIdError` of webstore_private_api.cc. -/
def kInvalidIdError : String := "Invalid id"

/-- `kIncognitoError` of webstore_private_api.cc. -/
def kIncognitoError : String :=
  "Apps cannot be installed in guest/incognito mode"

/-- Outcome of `WebstorePrivateCompleteInstallFunction::Run`: either an
immediate error response, or the popped approval handed to the
`WebstoreInstaller` (`started`), together with the pending list that remains
in `g_pending_approvals`. -/
inductive CompleteInstallResponse where
  | error (message : String)
  | started (approval : Approval) (pending : List Approval)
deriving Repr, DecidableEq

/-- `WebstorePrivateCompleteInstallFunction::Run`, over the state of
`g_pending_approvals`: guest/off-the-record sessions fail with
`kIncognitoError`; an invalid id fails with `kInvalidIdError`; then the
function pops the first matching approval and on failure responds with
`kNoPreviousBeginInstallWithManifestError`, on success hands the approval to
the installer. -/
def completeInstallRun (profile : Profile) (expected_id : String)
    (pending : List Approval) : CompleteInstallResponse :=
  if profile.guestSession || profile.offTheRecord then
    .error kIncognitoError
  else if !idIsValid expected_id then
    .error kInvalidIdError
  else
    match PopApproval profile expected_id pending with
    | (none, _) => .error kNoPreviousBeginInstallWithManifestError
    | (some a, rest) => .started a rest

/-- A 32-character all-lowercase extension id used for concrete instances. -/
def exampleId : String := "aaaaaaaaaaaaaaaaaaaaaaaaaaaaaaaa"

theorem PopApproval_fst_eq_none_iff (p : Profile) (id : String) (l : List Approval) :
    (PopApproval p id l).1 = none ↔
      ∀ a ∈ l, ¬(a.extension_id = id ∧ isSameProfile p a.profile = true) := by
  induction l with
  | nil => simp [PopApproval]
  | cons a rest ih =>
    by_cases h : (a.extension_id == id && isSameProfile p a.profile) = true
    · simp only [PopApproval, h, if_pos]
      simp only [Bool.and_eq_true, beq_iff_eq] at h
      simp [h]
    · simp only [PopApproval, h, if_neg, Bool.not_eq_true]
      simp only [Bool.and_eq_true, beq_iff_eq, not_and] at h
      simp only [List.mem_cons, forall_eq_or_imp]
      constructor
      · intro hnone
        refine ⟨?_, (ih.mp hnone)⟩
        intro ⟨h1, h2⟩
        exact absurd h2 (by simpa using h h1)
      · intro ⟨_, hrest⟩
        exact ih.mpr hrest

theorem PopApproval_first_match (p : Profile) (id : String)
    (l1 l2 : List Approval) (a : Approval)
    (h1 : ∀ b ∈ l1, ¬(b.extension_id = id ∧ isSameProfile p b.profile = true))
    (h2 : a.extension_id = id) (h3 : isSameProfile p a.profile = true) :
    PopApproval p id (l1 ++ a :: l2) = (some a, l1 ++ l2) := by
  induction l1 with
  | nil => simp [PopApproval, h2, h3]
  | cons b bs ih =>
    have hb := h1 b (List.mem_cons_self b bs)
    have hbfalse : (b.extension_id == id && isSameProfile p b.profile) = true → False := by
      intro hcontra
      simp only [Bool.and_eq_true, beq_iff_eq] at hcontra
      exact hb hcontra
    have ihres := ih (fun c hc => h1 c (List.mem_cons_of_mem b hc))
    simp only [List.cons_append, PopApproval]
    rw [if_neg hbfalse]
    simp only [List.append_eq]
    rw [ihres]

theorem PopApproval_none_snd (p : Profile) (id : String) (l : List Approval)
    (h : (PopApproval p id l).1 = none) : (PopApproval p id l).2 = l := by
  induction l with
  | nil => simp [PopApproval]
  | cons a rest ih =>
    by_cases hc : (a.extension_id == id && isSameProfile p a.profile) = true
    · simp [PopApproval, hc] at h
    · simp only [PopApproval, hc, if_neg, Bool.not_eq_true] at h ⊢
      simp only [ih h]

theorem completeInstallRun_pop_eq (profile : Profile) (id : String)
    (pending : List Approval)
    (hguest : profile.guestSession = false)
    (hotr : profile.offTheRecord = false)
    (hvalid : idIsValid id = true) :
    completeInstallRun profile id pending =
      (match PopApproval profile id pending with
       | (none, _) =>
          CompleteInstallResponse.error kNoPreviousBeginInstallWithManifestError
       | (some a, rest) => CompleteInstallResponse.started a rest) := by
  unfold completeInstallRun
  rw [hguest, hotr, hvalid]
  rfl

/-- C1 (amended): a `completeInstall` call with a valid extension id from a
non-guest, non-off-the-record profile fails with
`kNoPreviousBeginInstallWithManifestError` exactly when the pending list holds
no approval whose `extension_id` equals the expected id and whose profile is
the same profile as the caller's; and when a matching approval exists, the
first matching approval in list order is removed from the pending list and
handed to the installer, all other approvals staying in place. -/
theorem completeInstall_error_iff_no_matching_approval
    (profile : Profile) (id : String) (pending : List Approval)
    (hvalid : idIsValid id = true)
    (hguest : profile.guestSession = false)
    (hotr : profile.offTheRecord = false) :
    (completeInstallRun profile id pending
        = CompleteInstallResponse.error kNoPreviousBeginInstallWithManifestError
      ↔ ∀ a ∈ pending,
          ¬(a.extension_id = id ∧ isSameProfile profile a.profile = true))
    ∧ (∀ l1 a l2, pending = l1 ++ a :: l2 →
        (∀ b ∈ l1, ¬(b.extension_id = id ∧ isSameProfile profile b.profile = true)) →
        a.extension_id = id → isSameProfile profile a.profile = true →
        completeInstallRun profile id pending
          = CompleteInstallResponse.started a (l1 ++ l2)) := by
  constructor
  · rw [completeInstallRun_pop_eq profile id pending hguest hotr hvalid]
    cases hp : PopApproval profile id pending with
    | mk r l' =>
      cases r with
      | none =>
        constructor
        · intro _
          exact (PopApproval_fst_eq_none_iff profile id pending).mp (by rw [hp])
        · intro _
          rfl
      | some a =>
        constructor
        · intro h
          exact absurd h (by simp)
        · intro h
          have hnone := (PopApproval_fst_eq_none_iff profile id pending).mpr h
          rw [hp] at hnone
          exact absurd hnone (by simp)
  · intro l1 a l2 hsplit hpre hid hsame
    rw [completeInstallRun_pop_eq profile id pending hguest hotr hvalid, hsplit,
        PopApproval_first_match profile id l1 l2 a hpre hid hsame]

theorem completeInstall_error_iff_no_matching_approval_witness :
    completeInstallRun ⟨0, false, false⟩ exampleId
        [Approval.mk exampleId ⟨0, true, false⟩]
      = CompleteInstallResponse.started (Approval.mk exampleId ⟨0, true, false⟩) [] := by
  have h := completeInstall_error_iff_no_matching_approval ⟨0, false, false⟩
      exampleId [Approval.mk exampleId ⟨0, true, false⟩] (by decide) rfl rfl
  simpa using h.2 [] (Approval.mk exampleId ⟨0, true, false⟩) [] rfl (by simp) rfl (by decide)

/-- C1 counterexample: as literally stated the claim fails for off-the-record
profiles. With a valid extension id and an empty pending list (so no matching
approval exists), a call from an off-the-record profile does not fail with
`kNoPreviousBeginInstallWithManifestError` as the claim demands: it fails with
`kIncognitoError` before the pending list is ever consulted. -/
theorem completeInstall_incognito_counterexample :
    idIsValid exampleId = true ∧
    (∀ a ∈ ([] : List Approval),
        ¬(a.extension_id = exampleId ∧
          isSameProfile ⟨0, true, false⟩ a.profile = true)) ∧
    completeInstallRun ⟨0, true, false⟩ exampleId []
        ≠ CompleteInstallResponse.error kNoPreviousBeginInstallWithManifestError ∧
    completeInstallRun ⟨0, true, false⟩ exampleId []
        = CompleteInstallResponse.error kIncognitoError := by
  refine ⟨by decide, by simp, by decide, rfl⟩

/-- C2 counterexample: the approval pushed into the code-owned global
`g_pending_approvals` list by `HandleInstallProceed` during a
`beginInstallWithManifest3` request is still present after that
request/response cycle completes, and a later `completeInstall` request
retrieves it: an Approval does survive, in state owned by this code, until a
later completeInstall request. -/
theorem approval_survives_counterexample :
    PushApproval [] (Approval.mk exampleId ⟨0, false, false⟩)
        = [Approval.mk exampleId ⟨0, false, false⟩] ∧
    completeInstallRun ⟨0, false, false⟩ exampleId
        (PushApproval [] (Approval.mk exampleId ⟨0, false, false⟩))
      = CompleteInstallResponse.started (Approval.mk exampleId ⟨0, false, false⟩) [] := by
  exact ⟨rfl, by decide⟩

/-- C2 (amended): the operations of this collection mutate Notification,
PortStatus and SyncedSession entities only transiently within one
request/response cycle, but Approvals are the exception: an approval pushed by
`HandleInstallProceed` during beginInstallWithManifest3 is retained in the
code-owned global `g_pending_approvals` list after that cycle completes, and a
later `completeInstall` for the same extension id and profile removes exactly
that approval and hands it to the installer. -/
theorem approval_retained_until_completeInstall
    (l : List Approval) (a : Approval) (p : Profile)
    (hid : idIsValid a.extension_id = true)
    (hg : p.guestSession = false) (ho : p.offTheRecord = false)
    (hsame : isSameProfile p a.profile = true)
    (hnone : ∀ b ∈ l,
        ¬(b.extension_id = a.extension_id ∧ isSameProfile p b.profile = true)) :
    a ∈ PushApproval l a ∧
    completeInstallRun p a.extension_id (PushApproval l a)
      = CompleteInstallResponse.started a l := by
  constructor
  · simp [PushApproval]
  · rw [completeInstallRun_pop_eq p a.extension_id (PushApproval l a) hg ho hid]
    have hsplit : PushApproval l a = l ++ a :: [] := by simp [PushApproval]
    rw [hsplit, PopApproval_first_match p a.extension_id l [] a hnone rfl hsame]
    simp

theorem approval_retained_until_completeInstall_witness :
    (Approval.mk exampleId ⟨1, false, false⟩)
        ∈ PushApproval [] (Approval.mk exampleId ⟨1, false, false⟩) ∧
    completeInstallRun ⟨1, false, false⟩ exampleId
        (PushApproval [] (Approval.mk exampleId ⟨1, false, false⟩))
      = CompleteInstallResponse.started (Approval.mk exampleId ⟨1, false, false⟩) [] :=
  approval_retained_until_completeInstall [] (Approval.mk exampleId ⟨1, false, false⟩)
    ⟨1, false, false⟩ (by decide) rfl rfl (by decide) (by simp)

/-- `sessions::SerializedNavigationEntry`, restricted to the fields the copy
logic reads. A GURL is modelled by its spec string; `is_empty` is the string
being empty. -/
structure SerializedNavigationEntry where
  virtual_url : String
  title : String
deriving Repr, DecidableEq, Inhabited

/-- `sessions::SessionTab`, restricted to the fields the copy logic reads. -/
structure SessionTab where
  current_navigation_index : Int
  navigations : List SerializedNavigationEntry
  timestamp : Int
  tab_id : Int
deriving Repr, DecidableEq, Inhabited

/-- Modelled from the spec: `SessionTab::normalized_navigation_index`
(components/sessions/core/session_types.h, not under src/): the
current navigation index clamped into `[0, navigations.size() - 1]`, that is
`max(0, min(current_navigation_index, size - 1))`. -/
def normalizedNavigationIndex (t : SessionTab) : Nat :=
  (max 0 (min t.current_navigation_index ((t.navigations.length : Int) - 1))).toNat

/-- The navigation entry at the tab's normalized navigation index
(`navigations.at(selected_index)`; in range whenever `navigations` is
non-empty). -/
def currentNavigation (t : SessionTab) : SerializedNavigationEntry :=
  t.navigations.getD (normalizedNavigationIndex t) default

/-- `ShouldSkipTab` of foreign_session_helper.cc. -/
def ShouldSkipTab (t : SessionTab) : Bool :=
  if t.navigations.isEmpty then
    true
  else if (currentNavigation t).virtual_url == "" then
    true
  else
    false

/-- `sessions::SessionWindow`, restricted to the fields the copy logic
reads. -/
structure SessionWindow where
  window_id : Int
  timestamp : Int
  tabs : List SessionTab
deriving Repr, DecidableEq, Inhabited

/-- `ShouldSkipWindow` of foreign_session_helper.cc: true when every tab of
the window is skippable. -/
def ShouldSkipWindow (w : SessionWindow) : Bool :=
  w.tabs.all (fun t => ShouldSkipTab t)

/-- `sync_driver::SyncedSession`, restricted to the fields the copy logic
reads; `windows` models the `SyncedWindowMap` as an association list in map
iteration order. -/
structure SyncedSession where
  session_tag : String
  session_name : String
  device_type : Int
  modified_time : Int
  windows : List (Int × SessionWindow)
deriving Repr, DecidableEq, Inhabited

/-- `ShouldSkipSession` of foreign_session_helper.cc: true when every window
of the session is skippable. -/
def ShouldSkipSession (s : SyncedSession) : Bool :=
  s.windows.all (fun p => ShouldSkipWindow p.2)

/-- One `Java_ForeignSessionHelper_push*` JNI call emitted by the copy
logic. -/
inductive JavaCall where
  | pushSession (tag : String) (name : String) (deviceType : Int) (modifiedTime : Int)
  | pushWindow (timestamp : Int) (windowId : Int)
  | pushTab (url : String) (title : String) (timestamp : Int) (tabId : Int)
deriving Repr, DecidableEq

/-- `CopyTabToJava`: pushes the tab's current navigation (virtual URL and
title), its timestamp and its id. -/
def CopyTabToJava (t : SessionTab) : JavaCall :=
  JavaCall.pushTab (currentNavigation t).virtual_url (currentNavigation t).title
    t.timestamp t.tab_id

/-- The tab loop of `CopyWindowToJava`: copies tabs in order and returns from
the whole function at the first skippable tab. -/
def copyWindowTabs : List SessionTab → List JavaCall
  | [] => []
  | t :: ts =>
    if ShouldSkipTab t then
      []
    else
      CopyTabToJava t :: copyWindowTabs ts

/-- `CopyWindowToJava` of foreign_session_helper.cc (the calls pushed into the
already-created Java window object). -/
def CopyWindowToJava (w : SessionWindow) : List JavaCall :=
  copyWindowTabs w.tabs

/-- `CopySessionToJava` of foreign_session_helper.cc: skippable windows are
dropped; every other window is pushed and then filled by
`CopyWindowToJava`. -/
def CopySessionToJava (s : SyncedSession) : List JavaCall :=
  s.windows.flatMap (fun p =>
    if ShouldSkipWindow p.2 then
      []
    else
      JavaCall.pushWindow p.2.timestamp p.2.window_id :: CopyWindowToJava p.2)

/-- Adds a key to a `base::DictionaryValue` modelled as its key list
(`SetBoolean(tag, true)`: the dictionary holds each key once). -/
def dictSetKey (d : List String) (k : String) : List String :=
  if d.contains k then d else d ++ [k]

/-- The calls a single non-skipped session contributes inside the
`GetForeignSessions` loop: the `pushSession` call, then either (field trial
"TabSyncByRecency" = "Enabled") one custom window holding the non-skippable
tabs returned by `OpenTabsUIDelegate::GetForeignSessionTabs`, or the full
session via `CopySessionToJava`. -/
def sessionCalls (groupEnabled : Bool) (foreignTabs : String → List SessionTab)
    (s : SyncedSession) : List JavaCall :=
  JavaCall.pushSession s.session_tag s.session_name s.device_type s.modified_time ::
    (if groupEnabled then
      JavaCall.pushWindow s.modified_time 0 ::
        ((foreignTabs s.session_tag).flatMap (fun t =>
          if ShouldSkipTab t then [] else [CopyTabToJava t]))
    else
      CopySessionToJava s)

/-- The main loop of `ForeignSessionHelper::GetForeignSessions` over the
sessions list: skippable sessions contribute nothing; for every other session
its tag is re-added to the cleared collapsed-sessions preference when the
pre-call preference (`collapsedOld`, the `DeepCopy` taken before `Clear`)
contained it, and its Java calls are emitted. -/
def getForeignSessionsLoop (groupEnabled : Bool)
    (foreignTabs : String → List SessionTab) (collapsedOld : List String)
    (pref : List String) :
    List SyncedSession → List JavaCall × List String
  | [] => ([], pref)
  | s :: rest =>
    if ShouldSkipSession s then
      getForeignSessionsLoop groupEnabled foreignTabs collapsedOld pref rest
    else
      let pref1 := if collapsedOld.contains s.session_tag then
          dictSetKey pref s.session_tag
        else
          pref
      let r := getForeignSessionsLoop groupEnabled foreignTabs collapsedOld pref1 rest
      (sessionCalls groupEnabled foreignTabs s ++ r.1, r.2)

/-- `ForeignSessionHelper::GetForeignSessions`: returns `none` (false) when
the open-tabs delegate is unavailable or `GetAllForeignSessions` fails;
otherwise clears the `kNtpCollapsedForeignSessions` preference and runs the
session loop, returning the emitted Java calls and the preference keys left
after the call. -/
def GetForeignSessions (openTabsAvailable : Bool) (getAllOk : Bool)
    (groupEnabled : Bool) (foreignTabs : String → List SessionTab)
    (collapsedOld : List String) (sessions : List SyncedSession) :
    Option (List JavaCall × List String) :=
  if !openTabsAvailable then
    none
  else if !getAllOk then
    none
  else
    some (getForeignSessionsLoop groupEnabled foreignTabs collapsedOld [] sessions)

theorem ShouldSkipTab_eq (t : SessionTab) :
    ShouldSkipTab t
      = (t.navigations.isEmpty || (currentNavigation t).virtual_url == "") := by
  unfold ShouldSkipTab
  by_cases h1 : t.navigations.isEmpty
  · simp [h1]
  · by_cases h2 : (currentNavigation t).virtual_url == "" <;>
      simp [h1, h2]

theorem not_ShouldSkipTab_iff (t : SessionTab) :
    (!ShouldSkipTab t) = true ↔
      t.navigations ≠ [] ∧ (currentNavigation t).virtual_url ≠ "" := by
  rw [ShouldSkipTab_eq]
  simp [List.isEmpty_iff]

theorem ShouldSkipSession_false_iff (s : SyncedSession) :
    ShouldSkipSession s = false ↔
      ∃ p ∈ s.windows, ∃ t ∈ p.2.tabs,
        t.navigations ≠ [] ∧ (currentNavigation t).virtual_url ≠ "" := by
  unfold ShouldSkipSession ShouldSkipWindow
  rw [List.all_eq_false]
  constructor
  · rintro ⟨p, hpmem, hp⟩
    rw [Bool.not_eq_true, List.all_eq_false] at hp
    rcases hp with ⟨t, htmem, ht⟩
    exact ⟨p, hpmem, t, htmem, (not_ShouldSkipTab_iff t).mp (by simp [ht])⟩
  · rintro ⟨p, hpmem, t, htmem, hgood⟩
    refine ⟨p, hpmem, ?_⟩
    rw [Bool.not_eq_true, List.all_eq_false]
    refine ⟨t, htmem, ?_⟩
    have := (not_ShouldSkipTab_iff t).mpr hgood
    simpa using this

theorem getForeignSessionsLoop_calls (ge : Bool)
    (ft : String → List SessionTab) (co pref : List String)
    (sessions : List SyncedSession) :
    (getForeignSessionsLoop ge ft co pref sessions).1 =
      sessions.flatMap (fun s =>
        if ShouldSkipSession s then [] else sessionCalls ge ft s) := by
  induction sessions generalizing pref with
  | nil => rfl
  | cons s rest ih =>
    by_cases hs : ShouldSkipSession s <;>
      simp [getForeignSessionsLoop, hs, ih]

theorem skip_branch_eq (ge : Bool) (ft : String → List SessionTab)
    (s : SyncedSession) :
    (if ShouldSkipSession s then [] else sessionCalls ge ft s)
      = (if ∃ p ∈ s.windows, ∃ t ∈ p.2.tabs,
            t.navigations ≠ [] ∧ (currentNavigation t).virtual_url ≠ "" then
          sessionCalls ge ft s
        else
          []) := by
  by_cases hex : ∃ p ∈ s.windows, ∃ t ∈ p.2.tabs,
      t.navigations ≠ [] ∧ (currentNavigation t).virtual_url ≠ ""
  · have hss := (ShouldSkipSession_false_iff s).mpr hex
    simp [hss, hex]
  · have hss : ShouldSkipSession s = true := by
      by_contra hne
      exact hex ((ShouldSkipSession_false_iff s).mp (by simpa using hne))
    simp [hss, hex]

/-- C3: a successful `GetForeignSessions` call pushes a session to the Java
result exactly when the session has at least one window containing at least
one tab whose navigations list is non-empty and whose navigation entry at the
tab's normalized navigation index has a non-empty virtual URL; a session in
which every tab of every window fails this test contributes no call at all (no
session, window, or tab is pushed for it). -/
theorem getForeignSessions_pushes_session_iff
    (ge : Bool) (ft : String → List SessionTab) (co : List String)
    (sessions : List SyncedSession) (calls : List JavaCall) (pref : List String)
    (h : GetForeignSessions true true ge ft co sessions = some (calls, pref)) :
    calls = sessions.flatMap (fun s =>
      if ∃ p ∈ s.windows, ∃ t ∈ p.2.tabs,
          t.navigations ≠ [] ∧ (currentNavigation t).virtual_url ≠ "" then
        sessionCalls ge ft s
      else
        []) := by
  have hc : calls = (getForeignSessionsLoop ge ft co [] sessions).1 := by
    unfold GetForeignSessions at h
    simp at h
    rw [h]
  rw [hc, getForeignSessionsLoop_calls]
  induction sessions with
  | nil => rfl
  | cons s rest ih => simp only [List.flatMap_cons, ih, skip_branch_eq]

/-- A concrete tab with one navigation holding a non-empty virtual URL. -/
def exampleGoodTab : SessionTab :=
  { current_navigation_index := 0
    navigations := [{ virtual_url := "http://a", title := "t" }]
    timestamp := 1
    tab_id := 2 }

/-- A concrete tab with an empty navigations list (skippable). -/
def exampleBadTab : SessionTab :=
  { current_navigation_index := 0, navigations := [], timestamp := 9, tab_id := 10 }

/-- A concrete session with one window holding one good tab. -/
def exampleGoodSession : SyncedSession :=
  { session_tag := "good"
    session_name := "n"
    device_type := 0
    modified_time := 3
    windows := [(1, { window_id := 7, timestamp := 5, tabs := [exampleGoodTab] })] }

/-- A concrete session in which every tab of every window is skippable. -/
def exampleBadSession : SyncedSession :=
  { session_tag := "bad"
    session_name := "m"
    device_type := 0
    modified_time := 4
    windows := [(1, { window_id := 8, timestamp := 6, tabs := [exampleBadTab] })] }

theorem getForeignSessions_pushes_session_iff_witness :
    [JavaCall.pushSession "good" "n" 0 3, JavaCall.pushWindow 5 7,
        JavaCall.pushTab "http://a" "t" 1 2]
      = [exampleGoodSession, exampleBadSession].flatMap (fun s =>
          if ∃ p ∈ s.windows, ∃ t ∈ p.2.tabs,
              t.navigations ≠ [] ∧ (currentNavigation t).virtual_url ≠ "" then
            sessionCalls false (fun _ => []) s
          else
            []) :=
  getForeignSessions_pushes_session_iff false (fun _ => []) []
    [exampleGoodSession, exampleBadSession]
    [JavaCall.pushSession "good" "n" 0 3, JavaCall.pushWindow 5 7,
        JavaCall.pushTab "http://a" "t" 1 2]
    [] rfl

theorem copyWindowTabs_eq_takeWhile (ts : List SessionTab) :
    copyWindowTabs ts
      = (ts.takeWhile (fun t => !ShouldSkipTab t)).map CopyTabToJava := by
  induction ts with
  | nil => rfl
  | cons t ts ih =>
    cases h : ShouldSkipTab t <;>
      simp [copyWindowTabs, List.takeWhile_cons, h, ih]

/-- C4: the tabs `CopyWindowToJava` pushes are exactly the images of the
longest prefix of the window's tab list containing no skippable tab: copying
stops at the first tab whose navigations list is empty or whose navigation at
the normalized navigation index has an empty virtual URL, and every later tab
of the window is dropped; `CopySessionToJava` fills every non-skipped window
this way. -/
theorem copyWindow_longest_valid_prefix :
    (∀ w : SessionWindow, CopyWindowToJava w
        = (w.tabs.takeWhile (fun t =>
            !(t.navigations.isEmpty
              || (currentNavigation t).virtual_url == ""))).map CopyTabToJava)
    ∧ ∀ s : SyncedSession, CopySessionToJava s
        = s.windows.flatMap (fun p =>
            if ShouldSkipWindow p.2 then
              []
            else
              JavaCall.pushWindow p.2.timestamp p.2.window_id ::
                (p.2.tabs.takeWhile (fun t =>
                  !(t.navigations.isEmpty
                    || (currentNavigation t).virtual_url == ""))).map CopyTabToJava) := by
  have hpred : (fun t => !ShouldSkipTab t)
      = (fun t => !(t.navigations.isEmpty
          || (currentNavigation t).virtual_url == "")) :=
    funext fun t => by rw [ShouldSkipTab_eq]
  constructor
  · intro w
    rw [CopyWindowToJava, copyWindowTabs_eq_takeWhile, hpred]
  · intro s
    unfold CopySessionToJava CopyWindowToJava
    simp only [copyWindowTabs_eq_takeWhile, hpred]

theorem mem_dictSetKey (d : List String) (k x : String) :
    x ∈ dictSetKey d k ↔ x ∈ d ∨ x = k := by
  unfold dictSetKey
  cases hc : d.contains k with
  | true =>
    rw [if_pos rfl]
    have hk : k ∈ d := by simpa using hc
    constructor
    · exact Or.inl
    · rintro (hx | rfl)
      · exact hx
      · exact hk
  | false =>
    rw [if_neg (by simp)]
    simp [List.mem_append]

theorem getForeignSessionsLoop_pref_mem (ge : Bool)
    (ft : String → List SessionTab) (co : List String)
    (sessions : List SyncedSession) (pref : List String) (tag : String) :
    tag ∈ (getForeignSessionsLoop ge ft co pref sessions).2 ↔
      tag ∈ pref ∨ (tag ∈ co ∧
        ∃ s ∈ sessions, ShouldSkipSession s = false ∧ s.session_tag = tag) := by
  induction sessions generalizing pref with
  | nil => simp [getForeignSessionsLoop]
  | cons s rest ih =>
    by_cases hs : ShouldSkipSession s
    · have hloop : getForeignSessionsLoop ge ft co pref (s :: rest)
          = getForeignSessionsLoop ge ft co pref rest := by
        simp [getForeignSessionsLoop, hs]
      rw [hloop, ih, List.exists_mem_cons_iff]
      have hQs : ¬(ShouldSkipSession s = false ∧ s.session_tag = tag) := by
        rintro ⟨hf, _⟩
        rw [hs] at hf
        cases hf
      tauto
    · have hs' : ShouldSkipSession s = false := by simpa using hs
      have hloop : (getForeignSessionsLoop ge ft co pref (s :: rest)).2
          = (getForeignSessionsLoop ge ft co
              (if co.contains s.session_tag then dictSetKey pref s.session_tag
               else pref) rest).2 := by
        simp [getForeignSessionsLoop, hs']
      rw [hloop, ih, List.exists_mem_cons_iff]
      have hQs : (ShouldSkipSession s = false ∧ s.session_tag = tag)
          ↔ s.session_tag = tag := by simp [hs']
      rw [hQs]
      by_cases hco : s.session_tag ∈ co
      · rw [if_pos (by simpa using hco), mem_dictSetKey]
        constructor
        · rintro ((hp | rfl) | ⟨hc, hex⟩)
          · exact Or.inl hp
          · exact Or.inr ⟨hco, Or.inl rfl⟩
          · exact Or.inr ⟨hc, Or.inr hex⟩
        · rintro (hp | ⟨hc, (rfl | hex)⟩)
          · exact Or.inl (Or.inl hp)
          · exact Or.inl (Or.inr rfl)
          · exact Or.inr ⟨hc, hex⟩
      · rw [if_neg (by simpa using hco)]
        constructor
        · rintro (hp | ⟨hc, hex⟩)
          · exact Or.inl hp
          · exact Or.inr ⟨hc, Or.inr hex⟩
        · rintro (hp | ⟨hc, (rfl | hex)⟩)
          · exact Or.inl hp
          · exact absurd hc hco
          · exact Or.inr ⟨hc, hex⟩

/-- C5: after every successful `GetForeignSessions` call, a tag is in the
collapsed-sessions preference (`kNtpCollapsedForeignSessions`) exactly when it
was in the preference before the call and is the tag of a currently reported
non-skipped session: the preference is the old set intersected with the
current non-skipped tags, and never accumulates a tag of a session that is no
longer current. -/
theorem getForeignSessions_collapsed_pref (ge : Bool)
    (ft : String → List SessionTab) (co : List String)
    (sessions : List SyncedSession) (calls : List JavaCall) (pref : List String)
    (h : GetForeignSessions true true ge ft co sessions = some (calls, pref))
    (tag : String) :
    tag ∈ pref ↔
      (tag ∈ co ∧
        ∃ s ∈ sessions, ShouldSkipSession s = false ∧ s.session_tag = tag) := by
  have hp : pref = (getForeignSessionsLoop ge ft co [] sessions).2 := by
    unfold GetForeignSessions at h
    simp at h
    rw [h]
  rw [hp, getForeignSessionsLoop_pref_mem]
  simp

theorem getForeignSessions_collapsed_pref_witness :
    "good" ∈ ["good"] ↔
      ("good" ∈ ["good", "stale"] ∧
        ∃ s ∈ [exampleGoodSession, exampleBadSession],
          ShouldSkipSession s = false ∧ s.session_tag = "good") :=
  getForeignSessions_collapsed_pref false (fun _ => []) ["good", "stale"]
    [exampleGoodSession, exampleBadSession]
    [JavaCall.pushSession "good" "n" 0 3, JavaCall.pushWindow 5 7,
        JavaCall.pushTab "http://a" "t" 1 2]
    ["good"] rfl "good"

/-- The integer size keys `DetermineInitialSize` reads from a constraint
dictionary via `GetInteger`: a key is `some v` when the dictionary holds it
with integer value `v` (any other or missing value makes `GetInteger` return
false). -/
structure ConstraintDict where
  maxWidth : Option Int
  maxHeight : Option Int
  minWidth : Option Int
  minHeight : Option Int
deriving Repr, DecidableEq, Inhabited

/-- `extensions::api::tab_capture::MediaStreamConstraint`: a mandatory
dictionary and an optional one. -/
structure MediaStreamConstraint where
  mandatory : ConstraintDict
  optional : Option ConstraintDict
deriving Repr, DecidableEq, Inhabited

/-- `extensions::api::tab_capture::CaptureOptions`, restricted to the fields
tab_capture_api.cc reads. -/
structure CaptureOptions where
  audio : Option Bool
  video : Option Bool
  audio_constraints : Option MediaStreamConstraint
  video_constraints : Option MediaStreamConstraint
  presentation_id : Option String
deriving Repr, DecidableEq, Inhabited

/-- `OptionsSpecifyAudioOrVideo` of tab_capture_api.cc:
`(options.audio && *options.audio) || (options.video && *options.video)`. -/
def OptionsSpecifyAudioOrVideo (options : CaptureOptions) : Bool :=
  options.audio.getD false || options.video.getD false

/-- Modelled from the spec: the `GURL` built from the start URL (GURL is
external Chromium code): its validity and its scheme. -/
structure Url where
  valid : Bool
  scheme : String
deriving Repr, DecidableEq

/-- `IsAcceptableOffscreenTabUrl` of tab_capture_api.cc: the URL is valid and
its scheme is http, https, or data. -/
def IsAcceptableOffscreenTabUrl (url : Url) : Bool :=
  url.valid && (url.scheme == "http" || url.scheme == "https" || url.scheme == "data")

/-- `kCapturingSameTab` of tab_capture_api.cc. -/
def kCapturingSameTab : String := "Cannot capture a tab with an active stream."

/-- `kFindingTabError` of tab_capture_api.cc. -/
def kFindingTabError : String := "Error finding tab to capture."

/-- `kNoAudioOrVideo` of tab_capture_api.cc. -/
def kNoAudioOrVideo : String := "Capture failed. No audio or video requested."

/-- `kGrantError` of tab_capture_api.cc. -/
def kGrantError : String :=
  "Extension has not been invoked for the current page (see activeTab permission). Chrome pages cannot be captured."

/-- `kNotWhitelistedForOffscreenTabApi` of tab_capture_api.cc. -/
def kNotWhitelistedForOffscreenTabApi : String :=
  "Extension is not whitelisted for use of the unstable, in-development chrome.tabCapture.captureOffscreenTab API."

/-- `kInvalidStartUrl` of tab_capture_api.cc. -/
def kInvalidStartUrl : String :=
  "Invalid/Missing/Malformatted starting URL for off-screen tab."

/-- `kTooManyOffscreenTabs` of tab_capture_api.cc. -/
def kTooManyOffscreenTabs : String :=
  "Extension has already started too many off-screen tabs."

/-- `kCapturingSameOffscreenTab` of tab_capture_api.cc. -/
def kCapturingSameOffscreenTab : String :=
  "Cannot capture the same off-screen tab more than once."

/-- Outcome of a synchronous tab-capture extension function: `failed e` is
`return false` with `error_ = e` and no result set; `succeeded r` is
`SetResult` of the options dictionary (after
`AddMediaStreamSourceConstraints`) and `return true`. -/
inductive CaptureResult where
  | failed (error : String)
  | succeeded (result : CaptureOptions)
deriving Repr, DecidableEq

/-- `AddMediaStreamSourceConstraints`, viewed through this embedding's fields:
when audio (resp. video) is requested and its constraint object is missing, a
fresh empty one is created. The chromeMediaSource / chromeMediaSourceId string
keys it writes live in the additional-properties part of the dictionaries,
outside the integer view modelled here. -/
def addMediaStreamSourceConstraints (options : CaptureOptions) : CaptureOptions :=
  { options with
    audio_constraints :=
      if options.audio.getD false then
        some (options.audio_constraints.getD default)
      else
        options.audio_constraints
    video_constraints :=
      if options.video.getD false then
        some (options.video_constraints.getD default)
      else
        options.video_constraints }

/-- `TabCaptureCaptureFunction::RunSync`. The outcomes of the external lookups
are parameters: `browserFound` (`FindAnyBrowser` non-null), `activeContentsFound`
(`GetActiveWebContents` non-null), `permissionOk` (the tab permission /
whitelist disjunction), `registryAccepts` (`TabCaptureRegistry::AddRequest`). -/
def TabCaptureCaptureRunSync (browserFound : Bool) (activeContentsFound : Bool)
    (permissionOk : Bool) (registryAccepts : Bool)
    (options : CaptureOptions) : CaptureResult :=
  if !browserFound then
    .failed kFindingTabError
  else if !activeContentsFound then
    .failed kFindingTabError
  else if !permissionOk then
    .failed kGrantError
  else if !OptionsSpecifyAudioOrVideo options then
    .failed kNoAudioOrVideo
  else if !registryAccepts then
    .failed kCapturingSameTab
  else
    .succeeded (addMediaStreamSourceConstraints options)

/-- `TabCaptureCaptureOffscreenTabFunction::RunSync`. External outcomes as
parameters: `isWhitelisted` (the command-line / Chromecast / media-router
whitelist disjunction), `openedOffscreenTab` (`OffscreenTabsOwner::OpenNewTab`
returned a tab; it is passed `DetermineInitialSize options`), `registryAccepts`
(`TabCaptureRegistry::AddRequest`). -/
def TabCaptureCaptureOffscreenTabRunSync (isWhitelisted : Bool)
    (startUrl : Url) (options : CaptureOptions)
    (openedOffscreenTab : Bool) (registryAccepts : Bool) : CaptureResult :=
  if !isWhitelisted then
    .failed kNotWhitelistedForOffscreenTabApi
  else if !IsAcceptableOffscreenTabUrl startUrl then
    .failed kInvalidStartUrl
  else if !OptionsSpecifyAudioOrVideo options then
    .failed kNoAudioOrVideo
  else if !openedOffscreenTab then
    .failed kTooManyOffscreenTabs
  else if !registryAccepts then
    .failed kCapturingSameOffscreenTab
  else
    .succeeded (addMediaStreamSourceConstraints options)

/-- Modelled from the spec: the `gfx::Size(int, int)` constructor and
`SetSize` (external Chromium code) clamp each component to be
non-negative. -/
def mkSize (w h : Int) : Int × Int := (max 0 w, max 0 h)

/-- Modelled from the spec: `gfx::Size::IsEmpty` (external Chromium code): a
size is empty when either component is zero. -/
def sizeIsEmpty (s : Int × Int) : Bool := s.1 == 0 || s.2 == 0

/-- The combined test `GetInteger(keyW, &w) && w >= 0 && GetInteger(keyH, &h)
&& h >= 0` used by `DetermineInitialSize` for each width/height key pair:
`some (w, h)` exactly when both keys are present with non-negative integer
values. -/
def bothNonneg : Option Int → Option Int → Option (Int × Int)
  | some w, some h => if 0 ≤ w ∧ 0 ≤ h then some (w, h) else none
  | _, _ => none

/-- `TabCaptureCaptureOffscreenTabFunction::DetermineInitialSize`, following
the source branch for branch (kDefaultWidth = 1280, kDefaultHeight = 720,
`min_size` starting as the empty `gfx::Size()`, i.e. (0, 0)). -/
def DetermineInitialSize (options : CaptureOptions) : Int × Int :=
  match options.video_constraints with
  | none => mkSize 1280 720
  | some vc =>
    match bothNonneg vc.mandatory.maxWidth vc.mandatory.maxHeight with
    | some wh => mkSize wh.1 wh.2
    | none =>
      let min_size0 : Int × Int :=
        match bothNonneg vc.mandatory.minWidth vc.mandatory.minHeight with
        | some wh => mkSize wh.1 wh.2
        | none => (0, 0)
      match vc.optional with
      | none => mkSize (max 1280 min_size0.1) (max 720 min_size0.2)
      | some opt =>
        match bothNonneg opt.maxWidth opt.maxHeight with
        | some wh =>
          if sizeIsEmpty min_size0 then
            mkSize wh.1 wh.2
          else
            mkSize (max wh.1 min_size0.1) (max wh.2 min_size0.2)
        | none =>
          let min_size1 : Int × Int :=
            if sizeIsEmpty min_size0 then
              match bothNonneg opt.minWidth opt.minHeight with
              | some wh => mkSize wh.1 wh.2
              | none => min_size0
            else
              min_size0
          mkSize (max 1280 min_size1.1) (max 720 min_size1.2)

theorem optionsSpecifyAudioOrVideo_iff (options : CaptureOptions) :
    OptionsSpecifyAudioOrVideo options = true ↔
      options.audio = some true ∨ options.video = some true := by
  unfold OptionsSpecifyAudioOrVideo
  cases ha : options.audio with
  | none =>
    cases hv : options.video with
    | none => simp
    | some v => cases v <;> simp
  | some a =>
    cases hv : options.video with
    | none => cases a <;> simp
    | some v => cases a <;> cases v <;> simp

/-- C6: once the tab-lookup and permission checks of `tabCapture.capture`
succeed, the function fails with exactly the error
`"Capture failed. No audio or video requested."` if and only if neither
`options.audio` nor `options.video` is present and true; and when audio or
video is requested but the tab capture registry rejects the request, it fails
with exactly `"Cannot capture a tab with an active stream."`, leaving no
result set. -/
theorem tabCapture_capture_errors
    (browserFound activeContentsFound permissionOk registryAccepts : Bool)
    (options : CaptureOptions)
    (hb : browserFound = true) (hc : activeContentsFound = true)
    (hp : permissionOk = true) :
    (TabCaptureCaptureRunSync browserFound activeContentsFound permissionOk
        registryAccepts options = CaptureResult.failed kNoAudioOrVideo
      ↔ ¬(options.audio = some true ∨ options.video = some true))
    ∧ ((options.audio = some true ∨ options.video = some true) →
        registryAccepts = false →
        TabCaptureCaptureRunSync browserFound activeContentsFound permissionOk
            registryAccepts options = CaptureResult.failed kCapturingSameTab
          ∧ ∀ r, TabCaptureCaptureRunSync browserFound activeContentsFound
              permissionOk registryAccepts options ≠ CaptureResult.succeeded r) := by
  subst hb hc hp
  by_cases hav0 : OptionsSpecifyAudioOrVideo options = true
  · have hor := (optionsSpecifyAudioOrVideo_iff options).mp hav0
    constructor
    · cases hr : registryAccepts
      · constructor
        · intro h
          simp [TabCaptureCaptureRunSync, hav0] at h
          exact absurd h (by decide)
        · intro hcontra
          exact absurd hor hcontra
      · constructor
        · intro h
          simp [TabCaptureCaptureRunSync, hav0] at h
        · intro hcontra
          exact absurd hor hcontra
    · intro _ hreg
      subst hreg
      constructor
      · simp [TabCaptureCaptureRunSync, hav0]
      · intro r h
        simp [TabCaptureCaptureRunSync, hav0] at h
  · have hav0' : OptionsSpecifyAudioOrVideo options = false := by
      simpa using hav0
    have hnor : ¬(options.audio = some true ∨ options.video = some true) := by
      intro hor
      rw [(optionsSpecifyAudioOrVideo_iff options).mpr hor] at hav0'
      cases hav0'
    constructor
    · constructor
      · intro _
        exact hnor
      · intro _
        simp [TabCaptureCaptureRunSync, hav0']
    · intro hor
      exact absurd hor hnor

/-- A concrete options value requesting audio only. -/
def exampleAVOptions : CaptureOptions :=
  { audio := some true
    video := none
    audio_constraints := none
    video_constraints := none
    presentation_id := none }

theorem tabCapture_capture_errors_witness :
    (TabCaptureCaptureRunSync true true true false exampleAVOptions
        = CaptureResult.failed kNoAudioOrVideo
      ↔ ¬(exampleAVOptions.audio = some true ∨ exampleAVOptions.video = some true))
    ∧ ((exampleAVOptions.audio = some true ∨ exampleAVOptions.video = some true) →
        false = false →
        TabCaptureCaptureRunSync true true true false exampleAVOptions
            = CaptureResult.failed kCapturingSameTab
          ∧ ∀ r, TabCaptureCaptureRunSync true true true false exampleAVOptions
              ≠ CaptureResult.succeeded r) :=
  tabCapture_capture_errors true true true false exampleAVOptions rfl rfl rfl

/-- C7: in `captureOffscreenTab` the checks apply in the order whitelist,
start URL, audio/video options, off-screen tab creation, registry, and the
first failing check determines the error: each error is produced exactly when
every earlier check passes and that check fails. -/
theorem tabCapture_captureOffscreenTab_check_order
    (w openOk regOk : Bool) (startUrl : Url) (options : CaptureOptions) :
    (TabCaptureCaptureOffscreenTabRunSync w startUrl options openOk regOk
        = CaptureResult.failed kNotWhitelistedForOffscreenTabApi ↔ w = false)
    ∧ (TabCaptureCaptureOffscreenTabRunSync w startUrl options openOk regOk
        = CaptureResult.failed kInvalidStartUrl
      ↔ (w = true ∧ IsAcceptableOffscreenTabUrl startUrl = false))
    ∧ (TabCaptureCaptureOffscreenTabRunSync w startUrl options openOk regOk
        = CaptureResult.failed kNoAudioOrVideo
      ↔ (w = true ∧ IsAcceptableOffscreenTabUrl startUrl = true
          ∧ OptionsSpecifyAudioOrVideo options = false))
    ∧ (TabCaptureCaptureOffscreenTabRunSync w startUrl options openOk regOk
        = CaptureResult.failed kTooManyOffscreenTabs
      ↔ (w = true ∧ IsAcceptableOffscreenTabUrl startUrl = true
          ∧ OptionsSpecifyAudioOrVideo options = true ∧ openOk = false))
    ∧ (TabCaptureCaptureOffscreenTabRunSync w startUrl options openOk regOk
        = CaptureResult.failed kCapturingSameOffscreenTab
      ↔ (w = true ∧ IsAcceptableOffscreenTabUrl startUrl = true
          ∧ OptionsSpecifyAudioOrVideo options = true ∧ openOk = true
          ∧ regOk = false)) := by
  have d1 : kInvalidStartUrl ≠ kNotWhitelistedForOffscreenTabApi := by decide
  have d2 : kNoAudioOrVideo ≠ kNotWhitelistedForOffscreenTabApi := by decide
  have d3 : kTooManyOffscreenTabs ≠ kNotWhitelistedForOffscreenTabApi := by decide
  have d4 : kCapturingSameOffscreenTab ≠ kNotWhitelistedForOffscreenTabApi := by decide
  have d5 : kNotWhitelistedForOffscreenTabApi ≠ kInvalidStartUrl := by decide
  have d6 : kNoAudioOrVideo ≠ kInvalidStartUrl := by decide
  have d7 : kTooManyOffscreenTabs ≠ kInvalidStartUrl := by decide
  have d8 : kCapturingSameOffscreenTab ≠ kInvalidStartUrl := by decide
  have d9 : kNotWhitelistedForOffscreenTabApi ≠ kNoAudioOrVideo := by decide
  have d10 : kInvalidStartUrl ≠ kNoAudioOrVideo := by decide
  have d11 : kTooManyOffscreenTabs ≠ kNoAudioOrVideo := by decide
  have d12 : kCapturingSameOffscreenTab ≠ kNoAudioOrVideo := by decide
  have d13 : kNotWhitelistedForOffscreenTabApi ≠ kTooManyOffscreenTabs := by decide
  have d14 : kInvalidStartUrl ≠ kTooManyOffscreenTabs := by decide
  have d15 : kNoAudioOrVideo ≠ kTooManyOffscreenTabs := by decide
  have d16 : kCapturingSameOffscreenTab ≠ kTooManyOffscreenTabs := by decide
  have d17 : kNotWhitelistedForOffscreenTabApi ≠ kCapturingSameOffscreenTab := by decide
  have d18 : kInvalidStartUrl ≠ kCapturingSameOffscreenTab := by decide
  have d19 : kNoAudioOrVideo ≠ kCapturingSameOffscreenTab := by decide
  have d20 : kTooManyOffscreenTabs ≠ kCapturingSameOffscreenTab := by decide
  cases w <;> cases hacc : IsAcceptableOffscreenTabUrl startUrl <;>
    cases hav : OptionsSpecifyAudioOrVideo options <;>
    cases openOk <;> cases regOk <;>
    simp only [TabCaptureCaptureOffscreenTabRunSync, hacc, hav, Bool.not_true,
      Bool.not_false, if_true, if_false, Bool.true_eq_false, Bool.false_eq_true,
      CaptureResult.failed.injEq, reduceCtorEq] <;>
    simp_all

theorem bothNonneg_some (a b : Option Int) (w h : Int)
    (hs : bothNonneg a b = some (w, h)) : 0 ≤ w ∧ 0 ≤ h := by
  cases a with
  | none => simp [bothNonneg] at hs
  | some x =>
    cases b with
    | none => simp [bothNonneg] at hs
    | some y =>
      simp only [bothNonneg] at hs
      split at hs
      · cases hs
        assumption
      · cases hs

theorem mkSize_nonneg_eq (w h : Int) (hw : 0 ≤ w) (hh : 0 ≤ h) :
    mkSize w h = (w, h) := by
  simp [mkSize, max_eq_right hw, max_eq_right hh]

/-- C8 (amended) rule, written from the amended claim's words:
the mandatory (maxWidth, maxHeight) pair wins when both are present and
non-negative; otherwise the recorded minimum is the mandatory
(minWidth, minHeight) pair when both are present and non-negative and (0, 0)
otherwise, and a recorded minimum with a zero component counts as no minimum:
an optional (maxWidth, maxHeight) pair is returned as-is when the recorded
minimum has a zero component and is componentwise-maxed with it otherwise;
when there is no optional maximum pair, a recorded minimum with a zero
component may be replaced by the optional (minWidth, minHeight) pair, and the
default 1280x720 is finally componentwise-maxed with the resulting minimum;
1280x720 is returned when there are no video constraints. -/
def specInitialSize (options : CaptureOptions) : Int × Int :=
  match options.video_constraints with
  | none => (1280, 720)
  | some vc =>
    match bothNonneg vc.mandatory.maxWidth vc.mandatory.maxHeight with
    | some wh => wh
    | none =>
      let recordedMin : Int × Int :=
        match bothNonneg vc.mandatory.minWidth vc.mandatory.minHeight with
        | some wh => wh
        | none => (0, 0)
      let optMax : Option (Int × Int) :=
        match vc.optional with
        | none => none
        | some o => bothNonneg o.maxWidth o.maxHeight
      let optMin : Option (Int × Int) :=
        match vc.optional with
        | none => none
        | some o => bothNonneg o.minWidth o.minHeight
      match optMax with
      | some wh =>
        if recordedMin.1 = 0 ∨ recordedMin.2 = 0 then
          wh
        else
          (max wh.1 recordedMin.1, max wh.2 recordedMin.2)
      | none =>
        let finalMin : Int × Int :=
          if recordedMin.1 = 0 ∨ recordedMin.2 = 0 then
            optMin.getD recordedMin
          else
            recordedMin
        (max 1280 finalMin.1, max 720 finalMin.2)

theorem sizeIsEmpty_iff (s : Int × Int) :
    sizeIsEmpty s = true ↔ (s.1 = 0 ∨ s.2 = 0) := by
  simp [sizeIsEmpty]

/-- C8 (amended): `DetermineInitialSize` computes exactly the amended rule
`specInitialSize`. -/
theorem determineInitialSize_amended (options : CaptureOptions) :
    DetermineInitialSize options = specInitialSize options := by
  cases hvc : options.video_constraints with
  | none =>
    simp only [DetermineInitialSize, specInitialSize, hvc, mkSize]
    decide
  | some vc =>
    cases hmm : bothNonneg vc.mandatory.maxWidth vc.mandatory.maxHeight with
    | some wh =>
      obtain ⟨w, h⟩ := wh
      obtain ⟨hw, hh⟩ := bothNonneg_some _ _ _ _ hmm
      simp only [DetermineInitialSize, specInitialSize, hvc, hmm]
      exact mkSize_nonneg_eq w h hw hh
    | none =>
      have hd1 : ∀ x : Int, (0:Int) ≤ max 1280 x :=
        fun x => le_max_of_le_left (by norm_num)
      have hd2 : ∀ x : Int, (0:Int) ≤ max 720 x :=
        fun x => le_max_of_le_left (by norm_num)
      cases hmn : bothNonneg vc.mandatory.minWidth vc.mandatory.minHeight with
      | some mn =>
        obtain ⟨mw, mh⟩ := mn
        obtain ⟨hmw, hmh⟩ := bothNonneg_some _ _ _ _ hmn
        have hms : mkSize mw mh = (mw, mh) := mkSize_nonneg_eq mw mh hmw hmh
        cases hopt : vc.optional with
        | none =>
          simp only [DetermineInitialSize, specInitialSize, hvc, hmm, hmn, hms,
            hopt, Option.getD_none, ite_self]
          exact mkSize_nonneg_eq _ _ (hd1 mw) (hd2 mh)
        | some o =>
          cases hom : bothNonneg o.maxWidth o.maxHeight with
          | some om =>
            obtain ⟨ow, oh⟩ := om
            obtain ⟨how, hoh⟩ := bothNonneg_some _ _ _ _ hom
            by_cases hz : mw = 0 ∨ mh = 0
            · have he : sizeIsEmpty (mw, mh) = true := (sizeIsEmpty_iff _).mpr hz
              simp only [DetermineInitialSize, specInitialSize, hvc, hmm, hmn,
                hms, hopt, hom, he, eq_self_iff_true, if_true, if_pos hz]
              exact mkSize_nonneg_eq _ _ how hoh
            · have he : sizeIsEmpty (mw, mh) = false := by
                rw [← Bool.not_eq_true]
                intro hcontra
                exact hz ((sizeIsEmpty_iff _).mp hcontra)
              simp only [DetermineInitialSize, specInitialSize, hvc, hmm, hmn,
                hms, hopt, hom, he, Bool.false_eq_true, if_false, if_neg hz]
              exact mkSize_nonneg_eq _ _
                (le_max_of_le_left how) (le_max_of_le_left hoh)
          | none =>
            cases hon : bothNonneg o.minWidth o.minHeight with
            | some onm =>
              obtain ⟨pw, ph⟩ := onm
              obtain ⟨hpw, hph⟩ := bothNonneg_some _ _ _ _ hon
              have hps : mkSize pw ph = (pw, ph) := mkSize_nonneg_eq pw ph hpw hph
              by_cases hz : mw = 0 ∨ mh = 0
              · have he : sizeIsEmpty (mw, mh) = true := (sizeIsEmpty_iff _).mpr hz
                simp only [DetermineInitialSize, specInitialSize, hvc, hmm, hmn,
                  hms, hps, hopt, hom, hon, he, eq_self_iff_true, if_true,
                  if_pos hz, Option.getD_some]
                exact mkSize_nonneg_eq _ _ (hd1 pw) (hd2 ph)
              · have he : sizeIsEmpty (mw, mh) = false := by
                  rw [← Bool.not_eq_true]
                  intro hcontra
                  exact hz ((sizeIsEmpty_iff _).mp hcontra)
                simp only [DetermineInitialSize, specInitialSize, hvc, hmm, hmn,
                  hms, hps, hopt, hom, hon, he, Bool.false_eq_true, if_false,
                  if_neg hz]
                exact mkSize_nonneg_eq _ _ (hd1 mw) (hd2 mh)
            | none =>
              by_cases hz : mw = 0 ∨ mh = 0
              · have he : sizeIsEmpty (mw, mh) = true := (sizeIsEmpty_iff _).mpr hz
                simp only [DetermineInitialSize, specInitialSize, hvc, hmm, hmn,
                  hms, hopt, hom, hon, he, eq_self_iff_true, if_true,
                  if_pos hz, Option.getD_none]
                exact mkSize_nonneg_eq _ _ (hd1 mw) (hd2 mh)
              · have he : sizeIsEmpty (mw, mh) = false := by
                  rw [← Bool.not_eq_true]
                  intro hcontra
                  exact hz ((sizeIsEmpty_iff _).mp hcontra)
                simp only [DetermineInitialSize, specInitialSize, hvc, hmm, hmn,
                  hms, hopt, hom, hon, he, Bool.false_eq_true, if_false,
                  if_neg hz]
                exact mkSize_nonneg_eq _ _ (hd1 mw) (hd2 mh)
      | none =>
        have he0 : sizeIsEmpty ((0, 0) : Int × Int) = true := by decide
        have hz0 : ((0 : Int) = 0 ∨ (0 : Int) = 0) := Or.inl rfl
        cases hopt : vc.optional with
        | none =>
          simp only [DetermineInitialSize, specInitialSize, hvc, hmm, hmn, hopt,
            Option.getD_none, ite_self]
          exact mkSize_nonneg_eq _ _ (hd1 0) (hd2 0)
        | some o =>
          cases hom : bothNonneg o.maxWidth o.maxHeight with
          | some om =>
            obtain ⟨ow, oh⟩ := om
            obtain ⟨how, hoh⟩ := bothNonneg_some _ _ _ _ hom
            simp only [DetermineInitialSize, specInitialSize, hvc, hmm, hmn,
              hopt, hom, he0, eq_self_iff_true, if_true, if_pos hz0]
            exact mkSize_nonneg_eq _ _ how hoh
          | none =>
            cases hon : bothNonneg o.minWidth o.minHeight with
            | some onm =>
              obtain ⟨pw, ph⟩ := onm
              obtain ⟨hpw, hph⟩ := bothNonneg_some _ _ _ _ hon
              have hps : mkSize pw ph = (pw, ph) := mkSize_nonneg_eq pw ph hpw hph
              simp only [DetermineInitialSize, specInitialSize, hvc, hmm, hmn,
                hps, hopt, hom, hon, he0, eq_self_iff_true, if_true,
                if_pos hz0, Option.getD_some]
              exact mkSize_nonneg_eq _ _ (hd1 pw) (hd2 ph)
            | none =>
              simp only [DetermineInitialSize, specInitialSize, hvc, hmm, hmn,
                hopt, hom, hon, he0, eq_self_iff_true, if_true,
                if_pos hz0, Option.getD_none]
              exact mkSize_nonneg_eq _ _ (hd1 0) (hd2 0)

/-- Capture options with mandatory minWidth = minHeight = 0 (a present,
non-negative mandatory minimum pair) and optional minWidth = minHeight =
2000, with no maximum constraints. -/
def exampleZeroMinOptions : CaptureOptions :=
  { audio := none
    video := some true
    audio_constraints := none
    video_constraints := some
      { mandatory :=
          { maxWidth := none, maxHeight := none
            minWidth := some 0, minHeight := some 0 }
        optional := some
          { maxWidth := none, maxHeight := none
            minWidth := some 2000, minHeight := some 2000 } }
    presentation_id := none }

/-- C8 counterexample: for `exampleZeroMinOptions` the claim's rule (default
1280x720 componentwise-maxed with the non-negative minimum pair found first in
mandatory-then-optional order, here the mandatory (0, 0)) predicts
(1280, 720), but the code treats a minimum with a zero component as an empty
`gfx::Size`, lets the optional minimums (2000, 2000) replace it, and returns
(2000, 2000). -/
theorem determineInitialSize_counterexample :
    DetermineInitialSize exampleZeroMinOptions = (2000, 2000) ∧
    DetermineInitialSize exampleZeroMinOptions
      ≠ (max 1280 (0 : Int), max 720 (0 : Int)) := by
  refine ⟨by decide, by decide⟩

/-- Fuel-driven core of the decimal printer (most-significant digit first):
one division step per unit of fuel; `n + 1` units always suffice
(`decDigitsCore_fuel`). -/
def decDigitsCore : Nat → Nat → List Char → List Char
  | 0, _, acc => acc
  | fuel + 1, n, acc =>
    if n < 10 then
      Nat.digitChar n :: acc
    else
      decDigitsCore fuel (n / 10) (Nat.digitChar (n % 10) :: acc)

/-- Modelled from the spec: `base::IntToString` for the non-negative values
produced by `GetRandomId` (base::IntToString is external Chromium code): the
usual decimal string of `n`. -/
def natToDecimal (n : Nat) : String :=
  String.mk (decDigitsCore (n + 1) n [])

theorem decDigitsCore_fuel (n : Nat) :
    ∀ f g acc, n < f → n < g →
      decDigitsCore f n acc = decDigitsCore g n acc := by
  induction n using Nat.strong_induction_on with
  | _ n ih =>
    intro f g acc hf hg
    cases f with
    | zero => omega
    | succ f =>
      cases g with
      | zero => omega
      | succ g =>
        by_cases h10 : n < 10
        · simp [decDigitsCore, h10]
        · have hdiv : n / 10 < n := Nat.div_lt_self (by omega) (by omega)
          simp only [decDigitsCore, h10, if_neg, if_false]
          exact ih (n / 10) hdiv f g _ (by omega) (by omega)

theorem decDigitsCore_append (n : Nat) :
    ∀ acc, decDigitsCore (n + 1) n acc = decDigitsCore (n + 1) n [] ++ acc := by
  induction n using Nat.strong_induction_on with
  | _ n ih =>
    intro acc
    by_cases h10 : n < 10
    · simp [decDigitsCore, h10]
    · have hdiv : n / 10 < n := Nat.div_lt_self (by omega) (by omega)
      have hstep : ∀ acc2, decDigitsCore (n + 1) n acc2
          = decDigitsCore (n / 10 + 1) (n / 10) (Nat.digitChar (n % 10) :: acc2) := by
        intro acc2
        simp only [decDigitsCore, h10, if_neg, if_false]
        exact decDigitsCore_fuel (n / 10) n (n / 10 + 1) _ (by omega) (by omega)
      rw [hstep acc, hstep []]
      rw [ih (n / 10) hdiv (Nat.digitChar (n % 10) :: acc),
          ih (n / 10) hdiv [Nat.digitChar (n % 10)]]
      simp

/-- The number denoted by a digit list read most-significant first, starting
from `a`. -/
def valFrom (a : Nat) (l : List Char) : Nat :=
  l.foldl (fun b c => 10 * b + (c.toNat - 48)) a

theorem digitChar_toNat : ∀ d, d < 10 → (Nat.digitChar d).toNat = 48 + d := by
  decide

theorem valFrom_append (a : Nat) (l1 l2 : List Char) :
    valFrom a (l1 ++ l2) = valFrom (valFrom a l1) l2 := by
  unfold valFrom
  rw [List.foldl_append]

theorem valFrom_decDigits (n : Nat) :
    ∀ a, valFrom a (decDigitsCore (n + 1) n [])
      = a * 10 ^ (decDigitsCore (n + 1) n []).length + n := by
  induction n using Nat.strong_induction_on with
  | _ n ih =>
    intro a
    by_cases h10 : n < 10
    · have hfix : decDigitsCore (n + 1) n [] = [Nat.digitChar n] := by
        simp [decDigitsCore, h10]
      rw [hfix]
      simp only [valFrom, List.foldl_cons, List.foldl_nil, List.length_cons,
        List.length_nil, pow_one, digitChar_toNat n h10]
      omega
    · have hdiv : n / 10 < n := Nat.div_lt_self (by omega) (by omega)
      have hsplit : decDigitsCore (n + 1) n []
          = decDigitsCore (n / 10 + 1) (n / 10) [] ++ [Nat.digitChar (n % 10)] := by
        have h1 : decDigitsCore (n + 1) n []
            = decDigitsCore n (n / 10) [Nat.digitChar (n % 10)] := by
          simp [decDigitsCore, h10]
        rw [h1, decDigitsCore_fuel (n / 10) n (n / 10 + 1) _ (by omega) (by omega),
          decDigitsCore_append (n / 10)]
      rw [hsplit, valFrom_append, ih (n / 10) hdiv a]
      have hd : valFrom (a * 10 ^ (decDigitsCore (n / 10 + 1) (n / 10) []).length
            + n / 10) [Nat.digitChar (n % 10)]
          = 10 * (a * 10 ^ (decDigitsCore (n / 10 + 1) (n / 10) []).length + n / 10)
            + n % 10 := by
        simp only [valFrom, List.foldl_cons, List.foldl_nil,
          digitChar_toNat (n % 10) (Nat.mod_lt n (by omega))]
        omega
      rw [hd, List.length_append, List.length_cons, List.length_nil]
      have hpow : 10 ^ ((decDigitsCore (n / 10 + 1) (n / 10) []).length + 1)
          = 10 ^ (decDigitsCore (n / 10 + 1) (n / 10) []).length * 10 := pow_succ 10 _
      have hmod : 10 * (n / 10) + n % 10 = n := by omega
      calc 10 * (a * 10 ^ (decDigitsCore (n / 10 + 1) (n / 10) []).length + n / 10)
            + n % 10
          = a * (10 ^ (decDigitsCore (n / 10 + 1) (n / 10) []).length * 10)
            + (10 * (n / 10) + n % 10) := by ring
        _ = a * 10 ^ ((decDigitsCore (n / 10 + 1) (n / 10) []).length + 1) + n := by
            rw [hpow, hmod]

theorem natToDecimal_val (n : Nat) :
    valFrom 0 (natToDecimal n).data = n := by
  show valFrom 0 (decDigitsCore (n + 1) n []) = n
  rw [valFrom_decDigits n 0]
  simp

theorem natToDecimal_injective : Function.Injective natToDecimal := by
  intro m n h
  have hdata : (natToDecimal m).data = (natToDecimal n).data := by rw [h]
  have hm := natToDecimal_val m
  have hn := natToDecimal_val n
  rw [hdata] at hm
  exact hm.symm.trans hn

/-- The search loop of `GetRandomId` of id_mapping_helper.cc: probes
`rand_value`, `rand_value + 1`, ... until the decimal string is not among the
mapping's keys; one probe per unit of fuel (the C++ loop is unbounded, and
`getRandomIdAux_found` shows `keys.length + 1` probes always suffice). -/
def getRandomIdAux (keys : List String) : Nat → Nat → String
  | rand_value, 0 => natToDecimal rand_value
  | rand_value, fuel + 1 =>
    if keys.contains (natToDecimal rand_value) then
      getRandomIdAux keys (rand_value + 1) fuel
    else
      natToDecimal rand_value

/-- `GetRandomId` of id_mapping_helper.cc over a mapping modelled as an
association list (keys are the public ids, values the GUIDs). `rand_value`
stands for the `base::RandInt(0, 2 * device_count)` draw. -/
def GetRandomId (mapping : List (String × String)) (device_count : Nat)
    (rand_value : Nat) : String :=
  getRandomIdAux (mapping.map Prod.fst) rand_value (mapping.length + 1)

theorem getRandomIdAux_found (keys : List String) :
    ∀ fuel v, (∃ k, k < fuel ∧ natToDecimal (v + k) ∉ keys) →
      getRandomIdAux keys v fuel ∉ keys ∧
      ∃ k, getRandomIdAux keys v fuel = natToDecimal (v + k) := by
  intro fuel
  induction fuel with
  | zero =>
    intro v hex
    rcases hex with ⟨k, hk, _⟩
    omega
  | succ fuel ih =>
    intro v hex
    by_cases hc : keys.contains (natToDecimal v) = true
    · have hmem : natToDecimal v ∈ keys := by simpa using hc
      rcases hex with ⟨k, hk, hfree⟩
      have hkpos : k ≠ 0 := by
        rintro rfl
        simp only [Nat.add_zero] at hfree
        exact hfree hmem
      have hex' : ∃ k, k < fuel ∧ natToDecimal (v + 1 + k) ∉ keys := by
        refine ⟨k - 1, by omega, ?_⟩
        have : v + 1 + (k - 1) = v + k := by omega
        rw [this]
        exact hfree
      have hres := ih (v + 1) hex'
      have hstep : getRandomIdAux keys v (fuel + 1)
          = getRandomIdAux keys (v + 1) fuel := by
        simp only [getRandomIdAux]
        rw [if_pos hc]
      rw [hstep]
      refine ⟨hres.1, ?_⟩
      rcases hres.2 with ⟨k', hk'⟩
      exact ⟨1 + k', by rw [hk']; ring_nf⟩
    · have hmem : natToDecimal v ∉ keys := by simpa using hc
      have hstep : getRandomIdAux keys v (fuel + 1) = natToDecimal v := by
        simp only [getRandomIdAux]
        rw [if_neg hc]
      rw [hstep]
      exact ⟨hmem, 0, by simp⟩

theorem exists_fresh_decimal (keys : List String) (v : Nat) :
    ∃ k, k < keys.length + 1 ∧ natToDecimal (v + k) ∉ keys := by
  by_contra hall
  push_neg at hall
  have hinj : Function.Injective (fun k : Nat => natToDecimal (v + k)) := by
    intro x y hxy
    have := natToDecimal_injective hxy
    omega
  have hsub : (Finset.range (keys.length + 1)).image
      (fun k => natToDecimal (v + k)) ⊆ keys.toFinset := by
    intro x hx
    simp only [Finset.mem_image, Finset.mem_range] at hx
    rcases hx with ⟨k, hk, rfl⟩
    simpa using hall k hk
  have hcard := Finset.card_le_card hsub
  rw [Finset.card_image_of_injective _ hinj, Finset.card_range] at hcard
  have hlen := List.toFinset_card_le keys
  omega

/-- `GetPublicIdFromGUID` of id_mapping_helper.cc: iterates the dictionary and
returns the key of the first entry whose (string) value equals `guid`, or the
empty string. -/
def GetPublicIdFromGUID (id_mapping : List (String × String))
    (guid : String) : String :=
  match id_mapping with
  | [] => ""
  | (k, v) :: rest => if v == guid then k else GetPublicIdFromGUID rest guid

/-- `sync_driver::DeviceInfo`, restricted to the fields
`CreateMappingForUnmappedDevices` reads and writes. -/
structure DeviceInfo where
  guid : String
  public_id : String
deriving Repr, DecidableEq

/-- `base::DictionaryValue::SetString` over the association-list model:
replaces an existing entry for the key, otherwise appends. -/
def dictSetString (d : List (String × String)) (k v : String) :
    List (String × String) :=
  if d.any (fun p => p.1 == k) then
    d.map (fun p => if p.1 == k then (k, v) else p)
  else
    d ++ [(k, v)]

/-- One iteration of the `CreateMappingForUnmappedDevices` loop: a device
whose GUID already has a public id in the mapping keeps it; otherwise
`GetRandomId` picks an id and `SetString` records it. -/
def createMappingStep (value : List (String × String)) (device_count : Nat)
    (rand_value : Nat) (device : DeviceInfo) :
    DeviceInfo × List (String × String) :=
  let local_id := GetPublicIdFromGUID value device.guid
  if local_id = "" then
    let id := GetRandomId value device_count rand_value
    ({ device with public_id := id }, dictSetString value id device.guid)
  else
    ({ device with public_id := local_id }, value)

/-- The loop of `CreateMappingForUnmappedDevices`: `device_count` is the total
device count (`device_info->size()`), `rands` supplies one `RandInt` draw per
processed device. -/
def createMappingAux (device_count : Nat) (value : List (String × String))
    (rands : List Nat) :
    List DeviceInfo → List DeviceInfo × List (String × String)
  | [] => ([], value)
  | d :: rest =>
    let s := createMappingStep value device_count (rands.headD 0) d
    let r := createMappingAux device_count s.2 rands.tail rest
    (s.1 :: r.1, r.2)

/-- `CreateMappingForUnmappedDevices` of id_mapping_helper.cc. -/
def CreateMappingForUnmappedDevices (devices : List DeviceInfo)
    (value : List (String × String)) (rands : List Nat) :
    List DeviceInfo × List (String × String) :=
  createMappingAux devices.length value rands devices

/-- C9: for every finite mapping dictionary, every device count and every
`RandInt` draw, `GetRandomId` terminates — the returned id is reached within
`mapping.length + 1` probes of the unbounded search loop — and is the decimal
string of an integer that is not a key of the mapping; consequently a device
without an existing public id is assigned by the `CreateMappingForUnmappedDevices`
step a fresh id that collides with no id already in the mapping, and that id
is recorded in the mapping. -/
theorem getRandomId_fresh (mapping : List (String × String))
    (device_count rand_value : Nat) (device : DeviceInfo) :
    (GetRandomId mapping device_count rand_value ∉ mapping.map Prod.fst
      ∧ ∃ k, GetRandomId mapping device_count rand_value
          = natToDecimal (rand_value + k))
    ∧ (GetPublicIdFromGUID mapping device.guid = "" →
        (createMappingStep mapping device_count rand_value device).1.public_id
            ∉ mapping.map Prod.fst
          ∧ (createMappingStep mapping device_count rand_value device).2
            = dictSetString mapping
                (GetRandomId mapping device_count rand_value) device.guid) := by
  have hkeys : (mapping.map Prod.fst).length = mapping.length := by
    simp
  have hmain : GetRandomId mapping device_count rand_value ∉ mapping.map Prod.fst
      ∧ ∃ k, GetRandomId mapping device_count rand_value
          = natToDecimal (rand_value + k) := by
    unfold GetRandomId
    rw [← hkeys]
    exact getRandomIdAux_found (mapping.map Prod.fst) _ rand_value
      (exists_fresh_decimal (mapping.map Prod.fst) rand_value)
  refine ⟨hmain, ?_⟩
  intro hunmapped
  unfold createMappingStep
  rw [hunmapped, if_pos rfl]
  exact ⟨hmain.1, rfl⟩

theorem getRandomId_fresh_witness :
    GetRandomId [("0", "g")] 1 0 ∉ ([("0", "g")] : List (String × String)).map Prod.fst
    ∧ (createMappingStep [("0", "g")] 1 0 ⟨"x", ""⟩).1.public_id
        ∉ ([("0", "g")] : List (String × String)).map Prod.fst :=
  ⟨(getRandomId_fresh [("0", "g")] 1 0 ⟨"x", ""⟩).1.1,
   ((getRandomId_fresh [("0", "g")] 1 0 ⟨"x", ""⟩).2 (by decide)).1⟩

/-- A browser thread (`content::BrowserThread::ID`), restricted to the two
threads this code names. -/
inductive ThreadName where
  | uiThread
  | ioThread
deriving Repr, DecidableEq

/-- A task bound with `base::Bind` for cross-thread dispatch:
`PlatformNotificationContext::DeleteNotificationData` with its completion
callback. -/
inductive NotificationTask where
  | deleteNotificationData (persistent_notification_id : Int) (origin : String)
       (callback : String)
deriving Repr, DecidableEq

/-- One observable effect of `OnPersistentNotificationClose`: a UMA
`RecordAction`, a `BrowserThread::PostTask` of a bound task to a target
thread, or (never emitted by this code, but expressible) a direct synchronous
invocation of such a task on the current thread. -/
inductive NotificationEffect where
  | recordAction (name : String)
  | postTask (target : ThreadName) (task : NotificationTask)
  | directCall (task : NotificationTask)
deriving Repr, DecidableEq

/-- `PlatformNotificationServiceImpl::OnPersistentNotificationClose`
(src/unnamed/part_001), as its ordered list of effects on the UI thread:
record the by-user/programmatic close action, then post the notification
database deletion (with the `OnPersistentNotificationDataDeleted` completion
callback) to the IO thread. -/
def OnPersistentNotificationClose (persistent_notification_id : Int)
    (origin : String) (by_user : Bool) : List NotificationEffect :=
  [ NotificationEffect.recordAction
      (if by_user then "Notifications.Persistent.ClosedByUser"
       else "Notifications.Persistent.ClosedProgrammatically"),
    NotificationEffect.postTask ThreadName.ioThread
      (NotificationTask.deleteNotificationData persistent_notification_id origin
        "OnPersistentNotificationDataDeleted") ]

/-- C10: closing a persistent notification on the UI thread performs its
cross-thread effect only by posting a bound callback: its effect list contains
no direct synchronous invocation of any task, and the notification database
record deletion (with its completion callback) occurs exactly as a `PostTask`
to the IO thread. -/
theorem onPersistentNotificationClose_posts_deletion
    (persistent_notification_id : Int) (origin : String) (by_user : Bool) :
    ((OnPersistentNotificationClose persistent_notification_id origin by_user).all
        (fun e => match e with
          | NotificationEffect.directCall _ => false
          | _ => true) = true)
    ∧ NotificationEffect.postTask ThreadName.ioThread
        (NotificationTask.deleteNotificationData persistent_notification_id origin
          "OnPersistentNotificationDataDeleted")
        ∈ OnPersistentNotificationClose persistent_notification_id origin by_user
    ∧ ∀ task, NotificationEffect.directCall task
        ∉ OnPersistentNotificationClose persistent_notification_id origin by_user := by
  refine ⟨?_, ?_, ?_⟩
  · cases by_user <;> rfl
  · simp [OnPersistentNotificationClose]
  · intro task
    simp [OnPersistentNotificationClose]
